import Mathlib

/-!
Verification development for the ocean-gliders-format-vocabularies repository.

The repository reconciles draft sensor and variable metadata records against
concept collections fetched from the NERC vocabulary server.  The Python
sources embedded here are `src/og1_sensors.py` (validate_sensor),
`src/og1_variables.py` (validate_variable), `src/nvs.py`
(concept_dict_from_collection, table_from_collection) and `src/validate.py`
(a legacy variant of the same reconcilers).

Modelling conventions:
- Python dicts (insertion ordered) are association lists `List (String × α)`;
  assignment updates the first matching key in place or appends a new entry,
  exactly as an insertion-ordered map behaves when keys are unique.
- A call that raises an uncaught Python exception (KeyError, IndexError) is
  `PyRes.raised`; `return False` is `PyRes.val none`; returning the record is
  `PyRes.val (some r)`.
- A JSON-LD concept is a structure whose `Option` fields model dict keys that
  may be absent; the ad hoc single-dict-or-list normalisation performed by the
  source (`if type(x) is dict: x = [x]`) means a field always denotes a list
  of URIs after normalisation, so it is modelled as `Option (List String)`.
-/

namespace OGV

/-- Result of running a Python function: a returned value or an uncaught
exception escaping the call. -/
inductive PyRes (α : Type) where
  | val : α → PyRes α
  | raised : PyRes α
deriving DecidableEq, Repr

/-- Character-list test that `p` occurs at the front of `s`
(used to implement Python substring containment). -/
def strStarts : List Char → List Char → Bool
  | _, [] => true
  | [], _ :: _ => false
  | c :: cs, p :: ps => c == p && strStarts cs ps

/-- Character-list test that `pat` occurs somewhere inside `s`. -/
def hasSubList (pat : List Char) : List Char → Bool
  | [] => strStarts [] pat
  | c :: cs => strStarts (c :: cs) pat || hasSubList pat cs

/-- Python `pat in s` on strings: substring containment. -/
def strHasSub (s pat : String) : Bool :=
  hasSubList pat.toList s.toList

/-- Python `d[k]` (as an Option): first entry of the association list with the
given key. -/
def alookup {α : Type} : List (String × α) → String → Option α
  | [], _ => none
  | (k', v) :: rest, k => if k' = k then some v else alookup rest k

/-- Python `d[k] = v`: update the first entry holding the key in place,
or append a new entry at the end (insertion order). -/
def aset {α : Type} : List (String × α) → String → α → List (String × α)
  | [], k, v => [(k, v)]
  | (k', v') :: rest, k, v =>
      if k' = k then (k', v) :: rest else (k', v') :: aset rest k v

/-- A metadata record (sensor or variable attributes): a Python dict from
attribute name to string value. -/
abbrev Record := List (String × String)

/-- Python `d.keys()` for a record. -/
def rkeys (r : Record) : List String := r.map Prod.fst

/-- Python `d.values()` for a record. -/
def rvalues (r : Record) : List String := r.map Prod.snd

/-- A vocabulary concept as parsed from the JSON-LD graph.  `none` in an
optional field models the corresponding `skos:` key being absent from the
JSON dict (accessing it raises KeyError); `broader`, `related` and
`inScheme` are normalised to lists of the linked `@id` URIs. -/
structure Concept where
  id : String
  prefLabel : Option String := none
  altLabel : Option String := none
  broader : Option (List String) := none
  related : Option (List String) := none
  inScheme : Option (List String) := none
deriving DecidableEq, Repr

/-- A concept store: a Python dict from URI to concept. -/
abbrev Store := List (String × Concept)

/-- From src/nvs.py: `{concept['@id']: concept for concept in concepts}` over
the graph with its trailing collection descriptor removed — a dict keyed by
each concept's `@id`, later duplicates overriding earlier ones. -/
def concept_dict_from_collection (concepts : List Concept) : Store :=
  concepts.foldl (fun st c => aset st c.id c) []

/-- Python `a | b` on dicts: start from `a` and write every entry of `b`
(later operand wins on key collision), as in `og1_p01_p02 = p01 | p02 | og1`. -/
def storeUnion (a b : Store) : Store :=
  b.foldl (fun st kc => aset st kc.1 kc.2) a

/-- The mandatory sensor attribute set from src/og1_sensors.py. -/
def mandatory_sensor_keys : List String :=
  ["long_name", "sensor_maker", "sensor_maker_vocabulary", "sensor_model",
   "sensor_model_vocabulary", "sensor_type", "sensor_type_vocabulary"]

/-- The initial `vocab_dict` of validate_sensor: canonical URI from the
resolved concept's `@id`, model and long name from its preferred label. -/
def vocabInit (data : Concept) (model_name : String) : Record :=
  [("sensor_model_vocabulary", data.id), ("sensor_model", model_name),
   ("long_name", model_name)]

/-- The `for broader_term in broader` loop of validate_sensor: each term whose
URI contains the L05 marker overwrites `sensor_type_vocabulary` and
`sensor_type` in `vocab_dict` (resolving the term in the L05 store, KeyError
if absent), and the loop breaks only when that URI already occurs among the
input sensor's values. -/
def broaderLoop (l05 : Store) (sensor : Record) :
    List String → Record → PyRes Record
  | [], vd => PyRes.val vd
  | t :: rest, vd =>
      if strHasSub t "L05" then
        match alookup l05 t with
        | none => PyRes.raised
        | some c =>
            match c.prefLabel with
            | none => PyRes.raised
            | some lbl =>
                let vd' := aset (aset vd "sensor_type_vocabulary" t)
                  "sensor_type" lbl
                if (rvalues sensor).contains t then PyRes.val vd'
                else broaderLoop l05 sensor rest vd'
      else broaderLoop l05 sensor rest vd

/-- The `for related_term in related` loop of validate_sensor: the first term
whose URI contains the L35 marker sets `sensor_maker_vocabulary` and
`sensor_maker` (resolving in the L35 store) and the loop breaks
unconditionally. -/
def relatedLoop (l35 : Store) : List String → Record → PyRes Record
  | [], vd => PyRes.val vd
  | t :: rest, vd =>
      if strHasSub t "L35" then
        match alookup l35 t with
        | none => PyRes.raised
        | some c =>
            match c.prefLabel with
            | none => PyRes.raised
            | some lbl =>
                PyRes.val (aset (aset vd "sensor_maker_vocabulary" t)
                  "sensor_maker" lbl)
      else relatedLoop l35 rest vd

/-- The final `for key, val in sensor.items()` loop of validate_sensor: every
input field whose key occurs in `vocab_dict` is overwritten with the derived
value (fields differing only trigger a log line before the overwrite; fields
absent from `vocab_dict` are left alone, with at most a warning logged). -/
def correctionLoop (sensor vd : Record) : Record :=
  sensor.map (fun kv =>
    match alookup vd kv.1 with
    | some v => (kv.1, v)
    | none => kv)

/-- src/og1_sensors.py validate_sensor.  The schema check is the source's
`if set(sensor.keys()) - mandatory_keys: return False` — it rejects exactly
when some key lies outside the mandatory set.  `sensor['sensor_model_vocabulary']`
raises KeyError when that key is absent.  The `skos:inScheme` membership test
of the source only logs a warning and never affects the result, so it is not
represented.  The input dict is mutated only by the final correction loop, so
on success the returned record is also the final state of the caller's dict,
and on rejection the dict is unchanged. -/
def validate_sensor (l22 l05 l35 : Store) (sensor : Record) :
    PyRes (Option Record) :=
  if (rkeys sensor).all (fun k => mandatory_sensor_keys.contains k) then
    match alookup sensor "sensor_model_vocabulary" with
    | none => PyRes.raised
    | some sensor_model_uri =>
        match alookup l22 sensor_model_uri with
        | none => PyRes.val none
        | some data =>
            match data.prefLabel with
            | none => PyRes.raised
            | some model_name =>
                match data.broader with
                | none => PyRes.raised
                | some broader =>
                    match broaderLoop l05 sensor broader
                        (vocabInit data model_name) with
                    | PyRes.raised => PyRes.raised
                    | PyRes.val vd1 =>
                        match data.related with
                        | none => PyRes.raised
                        | some related =>
                            match relatedLoop l35 related vd1 with
                            | PyRes.raised => PyRes.raised
                            | PyRes.val vd2 =>
                                PyRes.val (some (correctionLoop sensor vd2))
  else PyRes.val none

/-- True exactly when a reconciler call returned a record (Python truthy
result at the batch-runner boundary). -/
def succeeded : PyRes (Option Record) → Bool
  | PyRes.val (some _) => true
  | _ => false

/-- A row of the P07 cross-reference table produced by table_from_collection.
`cf_standard_name` and `units_uri` are `none` when the source row lacks the
column value (a pandas NaN cell). -/
structure Row where
  uri : String
  definition : String
  cf_standard_name : Option String := none
  units_uri : Option String := none
deriving DecidableEq, Repr

/-- The value of a `skos:definition` JSON entry: either a dict carrying the
text under `@value`, or the bare text. -/
inductive DefVal where
  | asDict : String → DefVal
  | asStr : String → DefVal
deriving DecidableEq, Repr

/-- Extract the definition text as table_from_collection does for both
shapes of the `skos:definition` value. -/
def defText : DefVal → String
  | DefVal.asDict v => v
  | DefVal.asStr v => v

/-- A raw graph concept as consumed by table_from_collection. -/
structure RawConcept where
  id : String
  definition : Option DefVal := none
  prefLabel : Option String := none
  related : Option (List String) := none
deriving DecidableEq, Repr

/-- One entry of a fetched collection graph: either a JSON record (dict) or a
malformed non-dict entry that the table projection skips. -/
inductive GraphEntry where
  | record : RawConcept → GraphEntry
  | malformed : GraphEntry
deriving DecidableEq, Repr

/-- The `for ddict in related` scan of table_from_collection: every term whose
URI contains the P06 marker overwrites `units_uri`; there is no break, so the
last match wins. -/
def unitsScan : List String → Option String → Option String
  | [], u => u
  | t :: rest, u => unitsScan rest (if strHasSub t "P06" then some t else u)

/-- Build one table row from a graph concept, as the body of the
table_from_collection loop does.  `concept['skos:definition']` raises KeyError
when the key is absent — a missing definition is not skipped. -/
def rowOfConcept (c : RawConcept) : PyRes Row :=
  match c.definition with
  | none => PyRes.raised
  | some d =>
      PyRes.val
        { uri := c.id, definition := defText d,
          cf_standard_name := c.prefLabel,
          units_uri := unitsScan (c.related.getD []) none }

/-- The row a graph entry contributes, if any: malformed entries contribute
nothing, and so would a definition-less concept if the loop reached the end
of its body (it raises instead; see rowOfConcept). -/
def entryRow : GraphEntry → Option Row
  | GraphEntry.malformed => none
  | GraphEntry.record c =>
      match c.definition with
      | none => none
      | some d =>
          some { uri := c.id, definition := defText d,
                 cf_standard_name := c.prefLabel,
                 units_uri := unitsScan (c.related.getD []) none }

/-- The `for concept in concepts` loop of table_from_collection: non-dict
entries are skipped with a debug log line; dict entries become rows via
rowOfConcept, a raised KeyError propagating out of the whole loop. -/
def tableLoop : List GraphEntry → PyRes (List Row)
  | [] => PyRes.val []
  | GraphEntry.malformed :: rest => tableLoop rest
  | GraphEntry.record c :: rest =>
      match rowOfConcept c with
      | PyRes.raised => PyRes.raised
      | PyRes.val row =>
          match tableLoop rest with
          | PyRes.raised => PyRes.raised
          | PyRes.val rows => PyRes.val (row :: rows)

/-- src/nvs.py table_from_collection: drop the trailing collection descriptor
(`concepts = graph[:-1]`) and project the remaining entries to rows. -/
def table_from_collection (graph : List GraphEntry) : PyRes (List Row) :=
  tableLoop graph.dropLast

/-- The four fixed coordinate variable names of validate_variable. -/
def coordNames : List String := ["TIME", "LONGITUDE", "LATITUDE", "DEPTH"]

/-- The fixed literal assigned to the `coordinates` attribute. -/
def coordsLiteral : String := "TIME, LONGITUDE, LATITUDE, DEPTH"

/-- The mandatory variable attribute set from src/og1_variables.py. -/
def vvMandatory : List String := ["standard_name", "vocabulary", "units"]

/-- The `_FillValue` defaulting step of validate_variable: assign the NaN
sentinel when the key is absent. -/
def vvFill (v : Record) : Record :=
  if (alookup v "_FillValue").isSome then v else aset v "_FillValue" "NaNf"

/-- The in-place preparation steps of validate_variable that run before any
check: force `coordinates` for non-coordinate variables, then default
`_FillValue` to the NaN sentinel when absent. -/
def vvPrep (var_name : String) (v : Record) : Record :=
  vvFill (if coordNames.contains var_name then v
          else aset v "coordinates" coordsLiteral)

/-- Append the trailing separator when the last character is not `/`, as the
source's `if variable_uri[-1] != '/': variable_uri += '/'` does. -/
def withSlash (uri0 : String) (c : Char) : String :=
  if c = '/' then uri0 else uri0 ++ "/"

/-- The `for related_term in related` scan of validate_variable: the first
term whose URI contains the P06 marker replaces the default units URI and the
loop breaks. -/
def p06Override : List String → Option String → Option String
  | [], u => u
  | t :: rest, u => if strHasSub t "P06" then some t else p06Override rest u

/-- The units resolution tail of validate_variable: take `units_uri` from the
first P07 row whose `cf_standard_name` equals the record's standard name
(`.values[0]`, IndexError when no row matches), override it from the resolved
concept's P06-marked `related` link when one exists, then build
`accepted_units` from the P06 concept's preferred and alternate labels.
`p06[units_uri]` raises KeyError when the URI (or a NaN cell, modelled as
`none`) is not a key of the units store, and `unit_dict['skos:altLabel']`
raises when the alternate label is absent.  The units comparison itself is
commented out in src/og1_variables.py, so the labels are computed but never
rejected on. -/
def unitsStage (p06 : Store) (p07 : List Row) (concept : Concept)
    (std : String) : PyRes (List String) :=
  match (p07.filter (fun row => row.cf_standard_name == some std)).head? with
  | none => PyRes.raised
  | some row =>
      let units_uri := match concept.related with
        | none => row.units_uri
        | some rs => p06Override rs row.units_uri
      match units_uri with
      | none => PyRes.raised
      | some u =>
          match alookup p06 u with
          | none => PyRes.raised
          | some ud =>
              match ud.prefLabel, ud.altLabel with
              | some pl, some al => PyRes.val [pl, al]
              | some _, none => PyRes.raised
              | none, _ => PyRes.raised

/-- The checked part of validate_variable, run on the already-prepared record:
mandatory-key check, vocabulary URI normalisation and store lookup,
standard-name check, long_name derivation, units resolution.  The source line
`variable_uri.replace('https:', 'http:')` discards the value returned by
`str.replace`, so the secure-scheme rewrite never takes effect and only the
trailing-separator normalisation is applied before the lookup; `uri[-1]`
raises IndexError on an empty URI.  When `long_name` is present, the source
only logs a warning on mismatch (it still evaluates the concept's preferred
label, raising KeyError when absent); when it is absent the label is assigned.
The first component of the result is the final state of the caller's dict. -/
def vvMain (store p06 : Store) (p07 : List Row) (v : Record) :
    Record × PyRes (Option Record) :=
  if vvMandatory.all (fun k => (alookup v k).isSome) then
    match alookup v "vocabulary" with
    | none => (v, PyRes.raised)
    | some uri0 =>
        match uri0.toList.getLast? with
        | none => (v, PyRes.raised)
        | some c =>
            match alookup store (withSlash uri0 c) with
            | none => (v, PyRes.val none)
            | some concept =>
                match alookup v "standard_name" with
                | none => (v, PyRes.raised)
                | some std =>
                    if p07.any
                        (fun row => row.cf_standard_name == some std) then
                      match concept.prefLabel with
                      | none => (v, PyRes.raised)
                      | some lbl =>
                          let v2 := if (alookup v "long_name").isSome then v
                                    else aset v "long_name" lbl
                          match unitsStage p06 p07 concept std with
                          | PyRes.raised => (v2, PyRes.raised)
                          | PyRes.val _ => (v2, PyRes.val (some v2))
                    else (v, PyRes.val none)
  else (v, PyRes.val none)

/-- src/og1_variables.py validate_variable: the preparation steps mutate the
input dict before any check, then the checked stage runs.  The pair returned
is (final state of the caller's dict, Python result). -/
def validate_variable (store p06 : Store) (p07 : List Row)
    (var_name : String) (var : Record) :
    Record × PyRes (Option Record) :=
  vvMain store p06 p07 (vvPrep var_name var)

/-- A graph entry that would not abort the table projection: every record
entry carries a definition. -/
def entryDefined : GraphEntry → Bool
  | GraphEntry.malformed => true
  | GraphEntry.record c => c.definition.isSome

/-- The type URI the broader loop of validate_sensor ends up selecting: the
first marker match already present among the record's values, otherwise the
last marker match. -/
def typeChoice (vals : List String) : List String → Option String
  | [] => none
  | m :: rest =>
      if strHasSub m "L05" then
        if vals.contains m then some m
        else
          match typeChoice vals rest with
          | some u => some u
          | none => some m
      else typeChoice vals rest

/-- The sensor-type label derived from a selected type URI via the L05
store. -/
def typeLabelOf (l05 : Store) (o : Option String) : Option String :=
  o.bind (fun u => (alookup l05 u).bind Concept.prefLabel)

/-! ### Association-list lemmas -/

theorem alookup_aset {α : Type} (l : List (String × α)) (k : String) (v : α)
    (k' : String) :
    alookup (aset l k v) k' = if k = k' then some v else alookup l k' := by
  induction l with
  | nil => simp [aset, alookup]
  | cons kv rest ih =>
      obtain ⟨k0, v0⟩ := kv
      by_cases h0 : k0 = k
      · subst h0
        by_cases h1 : k0 = k'
        · subst h1
          simp [aset, alookup]
        · simp [aset, alookup, h1]
      · by_cases h1 : k0 = k'
        · subst h1
          simp [aset, alookup, h0, if_neg (Ne.symm h0)]
        · simp [aset, alookup, h0, h1, ih]

theorem aset_self {α : Type} (l : List (String × α)) (k : String) (v : α)
    (h : alookup l k = some v) : aset l k v = l := by
  induction l with
  | nil => simp [alookup] at h
  | cons kv rest ih =>
      obtain ⟨k0, v0⟩ := kv
      by_cases h0 : k0 = k
      · subst h0
        simp [alookup] at h
        simp [aset, h]
      · simp [alookup, h0] at h
        simp [aset, h0, ih h]

theorem mem_rkeys_iff_isSome (r : Record) (k : String) :
    k ∈ rkeys r ↔ (alookup r k).isSome := by
  induction r with
  | nil => simp [rkeys, alookup]
  | cons kv rest ih =>
      obtain ⟨k0, v0⟩ := kv
      by_cases h0 : k0 = k
      · subst h0
        simp [rkeys, alookup]
      · simp only [rkeys, List.map_cons, List.mem_cons, alookup, if_neg h0]
        rw [← rkeys]
        simp [Ne.symm h0, ih]

theorem rkeys_correctionLoop (s vd : Record) :
    rkeys (correctionLoop s vd) = rkeys s := by
  induction s with
  | nil => rfl
  | cons kv rest ih =>
      obtain ⟨k0, v0⟩ := kv
      simp only [correctionLoop, List.map_cons] at ih ⊢
      cases alookup vd k0 <;> simp [rkeys, List.map_cons] at ih ⊢ <;>
        exact ih

theorem alookup_correctionLoop (s vd : Record) (k : String) :
    alookup (correctionLoop s vd) k =
      (alookup s k).map (fun w => (alookup vd k).getD w) := by
  induction s with
  | nil => simp [correctionLoop, alookup]
  | cons kv rest ih =>
      obtain ⟨k0, v0⟩ := kv
      by_cases h0 : k0 = k
      · subst h0
        cases hv : alookup vd k0 <;>
          simp [correctionLoop, alookup, hv]
      · cases hv : alookup vd k0 <;>
          simp [correctionLoop, alookup, h0, hv] at ih ⊢ <;> exact ih

theorem correctionLoop_idem (s vd : Record) :
    correctionLoop (correctionLoop s vd) vd = correctionLoop s vd := by
  induction s with
  | nil => rfl
  | cons kv rest ih =>
      obtain ⟨k0, v0⟩ := kv
      cases hv : alookup vd k0 <;>
        simp [correctionLoop, List.map_cons, hv] at ih ⊢ <;>
          simpa [correctionLoop] using ih

/-! ### Loop characterisation lemmas -/

theorem broaderLoop_pres {l05 : Store} {s : Record} {bs : List String}
    {vd vd' : Record} (h : broaderLoop l05 s bs vd = PyRes.val vd')
    (k : String) (hk1 : k ≠ "sensor_type_vocabulary")
    (hk2 : k ≠ "sensor_type") :
    alookup vd' k = alookup vd k := by
  induction bs generalizing vd with
  | nil =>
      simp only [broaderLoop, PyRes.val.injEq] at h
      rw [h]
  | cons t rest ih =>
      by_cases hm : strHasSub t "L05" = true
      · rw [broaderLoop, if_pos hm] at h
        cases hc : alookup l05 t with
        | none => simp only [hc] at h; cases h
        | some c =>
            simp only [hc] at h
            cases hp : c.prefLabel with
            | none => simp only [hp] at h; cases h
            | some lbl =>
                simp only [hp] at h
                by_cases hv : (rvalues s).contains t = true
                · rw [if_pos hv] at h
                  injection h with h
                  subst h
                  simp [alookup_aset, Ne.symm hk1, Ne.symm hk2]
                · rw [if_neg hv] at h
                  rw [ih h]
                  simp [alookup_aset, Ne.symm hk1, Ne.symm hk2]
      · rw [broaderLoop, if_neg hm] at h
        exact ih h

theorem relatedLoop_pres {l35 : Store} {rs : List String} {vd vd' : Record}
    (h : relatedLoop l35 rs vd = PyRes.val vd') (k : String)
    (hk1 : k ≠ "sensor_maker_vocabulary") (hk2 : k ≠ "sensor_maker") :
    alookup vd' k = alookup vd k := by
  induction rs generalizing vd with
  | nil =>
      simp only [relatedLoop, PyRes.val.injEq] at h
      rw [h]
  | cons t rest ih =>
      by_cases hm : strHasSub t "L35" = true
      · rw [relatedLoop, if_pos hm] at h
        cases hc : alookup l35 t with
        | none => simp only [hc] at h; cases h
        | some c =>
            simp only [hc] at h
            cases hp : c.prefLabel with
            | none => simp only [hp] at h; cases h
            | some lbl =>
                simp only [hp] at h
                injection h with h
                subst h
                simp [alookup_aset, Ne.symm hk1, Ne.symm hk2]
      · rw [relatedLoop, if_neg hm] at h
        exact ih h

theorem broaderLoop_nomatch {l05 : Store} {s : Record} {bs : List String}
    (h : ∀ x ∈ bs, ¬ strHasSub x "L05" = true) (vd : Record) :
    broaderLoop l05 s bs vd = PyRes.val vd := by
  induction bs generalizing vd with
  | nil => rfl
  | cons t rest ih =>
      rw [broaderLoop, if_neg (h t (List.mem_cons_self t rest))]
      exact ih (fun x hx => h x (List.mem_cons_of_mem t hx)) vd

theorem broaderLoop_indep {l05 : Store} {bs : List String}
    (h : bs.countP (fun t => strHasSub t "L05") ≤ 1) (s1 s2 : Record)
    (vd : Record) :
    broaderLoop l05 s1 bs vd = broaderLoop l05 s2 bs vd := by
  induction bs generalizing vd with
  | nil => rfl
  | cons t rest ih =>
      by_cases hm : strHasSub t "L05" = true
      · have hz : ∀ x ∈ rest, ¬ strHasSub x "L05" = true := by
          intro x hx hpx
          have hc1 : 0 < rest.countP (fun u => strHasSub u "L05") :=
            List.countP_pos_iff.mpr ⟨x, hx, hpx⟩
          have hc2 : (t :: rest).countP (fun u => strHasSub u "L05") =
              rest.countP (fun u => strHasSub u "L05") + 1 := by
            rw [List.countP_cons]
            simp [hm]
          omega
        have hred : ∀ sx : Record,
            broaderLoop l05 sx (t :: rest) vd =
              match alookup l05 t with
              | none => PyRes.raised
              | some c =>
                  match c.prefLabel with
                  | none => PyRes.raised
                  | some lbl =>
                      PyRes.val (aset (aset vd "sensor_type_vocabulary" t)
                        "sensor_type" lbl) := by
          intro sx
          rw [broaderLoop, if_pos hm]
          cases hc : alookup l05 t with
          | none => simp only [hc]
          | some c =>
              simp only [hc]
              cases hp : c.prefLabel with
              | none => simp only [hp]
              | some lbl =>
                  simp only [hp]
                  by_cases hv : (rvalues sx).contains t = true
                  · rw [if_pos hv]
                  · rw [if_neg hv]
                    exact broaderLoop_nomatch hz _
        rw [hred s1, hred s2]
      · have hr : rest.countP (fun u => strHasSub u "L05") ≤ 1 := by
          rw [List.countP_cons] at h
          simp only [hm] at h
          omega
        rw [broaderLoop, if_neg hm, broaderLoop, if_neg hm]
        exact ih hr vd

theorem typeChoice_isSome {vals bs : List String}
    (h : bs.filter (fun t => strHasSub t "L05") ≠ []) :
    (typeChoice vals bs).isSome := by
  induction bs with
  | nil => simp at h
  | cons t rest ih =>
      by_cases hm : strHasSub t "L05" = true
      · rw [typeChoice, if_pos hm]
        by_cases hv : vals.contains t = true
        · rw [if_pos hv]
          rfl
        · rw [if_neg hv]
          cases typeChoice vals rest <;> rfl
      · rw [typeChoice, if_neg hm]
        refine ih ?_
        rw [List.filter_cons] at h
        simpa only [hm, Bool.false_eq_true, if_false] using h

theorem broaderLoop_choice {l05 : Store} {s : Record} {bs : List String}
    {vd vd' : Record} (h : broaderLoop l05 s bs vd = PyRes.val vd') :
    alookup vd' "sensor_type_vocabulary" =
      ((typeChoice (rvalues s) bs).elim
        (alookup vd "sensor_type_vocabulary") some) ∧
    alookup vd' "sensor_type" =
      ((typeChoice (rvalues s) bs).elim (alookup vd "sensor_type")
        (fun u => typeLabelOf l05 (some u))) := by
  induction bs generalizing vd with
  | nil =>
      simp only [broaderLoop, PyRes.val.injEq] at h
      rw [h]
      simp [typeChoice]
  | cons t rest ih =>
      by_cases hm : strHasSub t "L05" = true
      · rw [broaderLoop, if_pos hm] at h
        cases hc : alookup l05 t with
        | none => simp only [hc] at h; cases h
        | some c =>
            simp only [hc] at h
            cases hp : c.prefLabel with
            | none => simp only [hp] at h; cases h
            | some lbl =>
                simp only [hp] at h
                by_cases hv : (rvalues s).contains t = true
                · rw [if_pos hv] at h
                  injection h with h
                  subst h
                  rw [typeChoice, if_pos hm, if_pos hv]
                  constructor
                  · simp [alookup_aset]
                  · simp [alookup_aset, typeLabelOf, hc, hp]
                · rw [if_neg hv] at h
                  obtain ⟨ih1, ih2⟩ := ih h
                  rw [ih1, ih2]
                  rw [typeChoice, if_pos hm, if_neg hv]
                  cases ht : typeChoice (rvalues s) rest with
                  | none =>
                      constructor
                      · simp [alookup_aset]
                      · simp [alookup_aset, typeLabelOf, hc, hp]
                  | some u =>
                      constructor
                      · simp
                      · simp
      · rw [broaderLoop, if_neg hm] at h
        obtain ⟨ih1, ih2⟩ := ih h
        rw [ih1, ih2, typeChoice, if_neg hm]
        exact ⟨rfl, rfl⟩

theorem typeChoice_resolves {l05 : Store} {s : Record} {bs : List String}
    {vd vd' : Record} (h : broaderLoop l05 s bs vd = PyRes.val vd')
    {u : String} (hu : typeChoice (rvalues s) bs = some u) :
    (typeLabelOf l05 (some u)).isSome := by
  induction bs generalizing vd with
  | nil => simp [typeChoice] at hu
  | cons t rest ih =>
      by_cases hm : strHasSub t "L05" = true
      · rw [broaderLoop, if_pos hm] at h
        rw [typeChoice, if_pos hm] at hu
        cases hc : alookup l05 t with
        | none => simp only [hc] at h; cases h
        | some c =>
            simp only [hc] at h
            cases hp : c.prefLabel with
            | none => simp only [hp] at h; cases h
            | some lbl =>
                simp only [hp] at h
                by_cases hv : (rvalues s).contains t = true
                · rw [if_pos hv] at hu
                  injection hu with hu
                  subst hu
                  simp [typeLabelOf, hc, hp]
                · rw [if_neg hv] at h
                  rw [if_neg hv] at hu
                  cases ht : typeChoice (rvalues s) rest with
                  | none =>
                      rw [ht] at hu
                      injection hu with hu
                      subst hu
                      simp [typeLabelOf, hc, hp]
                  | some w =>
                      rw [ht] at hu
                      injection hu with hu
                      subst hu
                      exact ih h ht
      · rw [broaderLoop, if_neg hm] at h
        rw [typeChoice, if_neg hm] at hu
        exact ih h hu

/-! ### Store coherence -/

theorem concept_dict_coherent_aux (cs : List Concept) (st : Store)
    (h : ∀ u c, alookup st u = some c → c.id = u) :
    ∀ u c, alookup (cs.foldl (fun s cc => aset s cc.id cc) st) u = some c →
      c.id = u := by
  induction cs generalizing st with
  | nil => exact h
  | cons d rest ih =>
      intro u c hl
      refine ih (aset st d.id d) ?_ u c hl
      intro u' c' hl'
      rw [alookup_aset] at hl'
      split at hl'
      · next heq =>
          cases hl'
          exact heq
      · exact h u' c' hl'

theorem concept_dict_coherent (cs : List Concept) (u : String) (c : Concept)
    (h : alookup (concept_dict_from_collection cs) u = some c) : c.id = u :=
  concept_dict_coherent_aux cs [] (by intro u' c' h'; simp [alookup] at h')
    u c h

/-! ### Inversion and evaluation lemmas for validate_sensor -/

theorem validate_sensor_inv {l22 l05 l35 : Store} {s r : Record}
    (h : validate_sensor l22 l05 l35 s = PyRes.val (some r)) :
    ∃ uri data model_name broader related vd1 vd2,
      ((rkeys s).all (fun k => mandatory_sensor_keys.contains k)) = true ∧
      alookup s "sensor_model_vocabulary" = some uri ∧
      alookup l22 uri = some data ∧
      data.prefLabel = some model_name ∧
      data.broader = some broader ∧
      broaderLoop l05 s broader (vocabInit data model_name) =
        PyRes.val vd1 ∧
      data.related = some related ∧
      relatedLoop l35 related vd1 = PyRes.val vd2 ∧
      r = correctionLoop s vd2 := by
  unfold validate_sensor at h
  split at h
  case isFalse => simp at h
  rename_i hall
  rcases hsmv : alookup s "sensor_model_vocabulary" with _ | uri
  · simp only [hsmv] at h; cases h
  simp only [hsmv] at h
  rcases hdata : alookup l22 uri with _ | data
  · simp only [hdata] at h; simp at h
  simp only [hdata] at h
  rcases hpl : data.prefLabel with _ | model_name
  · simp only [hpl] at h; cases h
  simp only [hpl] at h
  rcases hbr : data.broader with _ | broader
  · simp only [hbr] at h; cases h
  simp only [hbr] at h
  rcases hbl : broaderLoop l05 s broader (vocabInit data model_name)
    with vd1 | _
  case raised => simp only [hbl] at h; cases h
  simp only [hbl] at h
  rcases hrel : data.related with _ | related
  · simp only [hrel] at h; cases h
  simp only [hrel] at h
  rcases hrl : relatedLoop l35 related vd1 with vd2 | _
  case raised => simp only [hrl] at h; cases h
  simp only [hrl] at h
  injection h with h
  injection h with h
  refine ⟨uri, data, model_name, broader, related, vd1, vd2, hall, ?_,
    hdata, hpl, hbr, hbl, hrel, hrl, h.symm⟩
  first
    | exact hsmv
    | rfl

theorem validate_sensor_build {l22 l05 l35 : Store} {s : Record}
    {uri : String} {data : Concept} {model_name : String}
    {broader related : List String} {vd1 vd2 : Record}
    (hall : ((rkeys s).all (fun k => mandatory_sensor_keys.contains k))
      = true)
    (hsmv : alookup s "sensor_model_vocabulary" = some uri)
    (hdata : alookup l22 uri = some data)
    (hpl : data.prefLabel = some model_name)
    (hbr : data.broader = some broader)
    (hbl : broaderLoop l05 s broader (vocabInit data model_name) =
      PyRes.val vd1)
    (hrel : data.related = some related)
    (hrl : relatedLoop l35 related vd1 = PyRes.val vd2) :
    validate_sensor l22 l05 l35 s =
      PyRes.val (some (correctionLoop s vd2)) := by
  unfold validate_sensor
  rw [if_pos hall]
  simp only [hsmv, hdata, hpl, hbr, hbl, hrel, hrl]

/-! ### Preparation and inversion lemmas for validate_variable -/

theorem vvFill_pres (v : Record) (k : String) (hk : k ≠ "_FillValue") :
    alookup (vvFill v) k = alookup v k := by
  unfold vvFill
  split
  · rfl
  · rw [alookup_aset, if_neg (Ne.symm hk)]

theorem vvFill_fill (v : Record) :
    (alookup (vvFill v) "_FillValue").isSome := by
  unfold vvFill
  split
  · assumption
  · rw [alookup_aset, if_pos rfl]
    rfl

theorem vvFill_self (v : Record)
    (h : (alookup v "_FillValue").isSome) : vvFill v = v := by
  unfold vvFill
  rw [if_pos h]

theorem vvPrep_pres (n : String) (v : Record) (k : String)
    (hk1 : k ≠ "coordinates") (hk2 : k ≠ "_FillValue") :
    alookup (vvPrep n v) k = alookup v k := by
  unfold vvPrep
  rw [vvFill_pres _ _ hk2]
  split
  · rfl
  · rw [alookup_aset, if_neg (Ne.symm hk1)]

theorem vvPrep_coords_false (n : String) (v : Record)
    (h : coordNames.contains n = false) :
    alookup (vvPrep n v) "coordinates" = some coordsLiteral := by
  unfold vvPrep
  rw [vvFill_pres _ _ (by decide)]
  rw [if_neg (by rw [h]; exact Bool.false_ne_true)]
  rw [alookup_aset, if_pos rfl]

theorem vvPrep_coords_true (n : String) (v : Record)
    (h : coordNames.contains n = true) :
    alookup (vvPrep n v) "coordinates" = alookup v "coordinates" := by
  unfold vvPrep
  rw [vvFill_pres _ _ (by decide)]
  rw [if_pos h]

theorem vvPrep_fillSome (n : String) (v : Record) :
    (alookup (vvPrep n v) "_FillValue").isSome :=
  vvFill_fill _

theorem vvPrep_fill_of_none (n : String) (v : Record)
    (h : alookup v "_FillValue" = none) :
    alookup (vvPrep n v) "_FillValue" = some "NaNf" := by
  unfold vvPrep vvFill
  have hp : alookup (if coordNames.contains n = true then v
      else aset v "coordinates" coordsLiteral) "_FillValue" = none := by
    split
    · exact h
    · rw [alookup_aset, if_neg (by decide)]
      exact h
  rw [if_neg (by rw [hp]; simp)]
  rw [alookup_aset, if_pos rfl]

theorem vvPrep_self (n : String) (v : Record)
    (hco : coordNames.contains n = true ∨
      alookup v "coordinates" = some coordsLiteral)
    (hfi : (alookup v "_FillValue").isSome) : vvPrep n v = v := by
  unfold vvPrep
  rcases hco with hco | hco
  · rw [if_pos hco]
    exact vvFill_self v hfi
  · by_cases hcn : coordNames.contains n = true
    · rw [if_pos hcn]
      exact vvFill_self v hfi
    · rw [if_neg hcn, aset_self _ _ _ hco]
      exact vvFill_self v hfi

theorem vvMain_inv {store p06 : Store} {p07 : List Row} {v r : Record}
    (h : (vvMain store p06 p07 v).2 = PyRes.val (some r)) :
    ∃ uri0 ch concept std lbl au,
      (vvMandatory.all (fun k => (alookup v k).isSome)) = true ∧
      alookup v "vocabulary" = some uri0 ∧
      uri0.toList.getLast? = some ch ∧
      alookup store (withSlash uri0 ch) = some concept ∧
      alookup v "standard_name" = some std ∧
      (p07.any (fun row => row.cf_standard_name == some std)) = true ∧
      concept.prefLabel = some lbl ∧
      unitsStage p06 p07 concept std = PyRes.val au ∧
      r = (if (alookup v "long_name").isSome then v
           else aset v "long_name" lbl) := by
  unfold vvMain at h
  split at h
  case isFalse => simp at h
  rename_i hman
  rcases hvoc : alookup v "vocabulary" with _ | uri0
  · simp only [hvoc] at h; simp at h
  simp only [hvoc] at h
  rcases hlast : uri0.toList.getLast? with _ | ch
  · simp only [hlast] at h; simp at h
  simp only [hlast] at h
  rcases hstore : alookup store (withSlash uri0 ch) with _ | concept
  · simp only [hstore] at h; simp at h
  simp only [hstore] at h
  rcases hstd : alookup v "standard_name" with _ | std
  · simp only [hstd] at h; simp at h
  simp only [hstd] at h
  by_cases hany : (p07.any (fun row => row.cf_standard_name == some std))
      = true
  swap
  · rw [if_neg hany] at h; simp at h
  rw [if_pos hany] at h
  rcases hpl : concept.prefLabel with _ | lbl
  · simp only [hpl] at h; simp at h
  simp only [hpl] at h
  rcases hunits : unitsStage p06 p07 concept std with au | _
  on_goal 2 => simp only [hunits] at h; simp at h
  simp only [hunits] at h
  refine ⟨uri0, ch, concept, std, lbl, au, hman, ?_, hlast, hstore,
    ?_, hany, hpl, hunits, ?_⟩
  · first
      | exact hvoc
      | rfl
  · first
      | exact hstd
      | rfl
  · simpa using h.symm

theorem vvMain_build {store p06 : Store} {p07 : List Row} {v : Record}
    {uri0 : String} {ch : Char} {concept : Concept} {std lbl : String}
    {au : List String}
    (hman : (vvMandatory.all (fun k => (alookup v k).isSome)) = true)
    (hvoc : alookup v "vocabulary" = some uri0)
    (hlast : uri0.toList.getLast? = some ch)
    (hstore : alookup store (withSlash uri0 ch) = some concept)
    (hstd : alookup v "standard_name" = some std)
    (hany : (p07.any (fun row => row.cf_standard_name == some std)) = true)
    (hpl : concept.prefLabel = some lbl)
    (hunits : unitsStage p06 p07 concept std = PyRes.val au) :
    vvMain store p06 p07 v =
      ((if (alookup v "long_name").isSome then v
        else aset v "long_name" lbl),
       PyRes.val (some (if (alookup v "long_name").isSome then v
        else aset v "long_name" lbl))) := by
  unfold vvMain
  rw [if_pos hman]
  simp only [hvoc, hlast, hstore, hstd, if_pos hany, hpl, hunits]

theorem vvMain_fst_pres (store p06 : Store) (p07 : List Row) (v : Record)
    (k : String) (hk : k ≠ "long_name") :
    alookup (vvMain store p06 p07 v).1 k = alookup v k := by
  unfold vvMain
  repeat' split
  all_goals simp [alookup_aset, Ne.symm hk]

theorem vvMain_fst_of_some {store p06 : Store} {p07 : List Row}
    {v r : Record} (h : (vvMain store p06 p07 v).2 = PyRes.val (some r)) :
    (vvMain store p06 p07 v).1 = r := by
  obtain ⟨uri0, ch, concept, std, lbl, au, hman, hvoc, hlast, hstore, hstd,
    hany, hpl, hunits, hr⟩ := vvMain_inv h
  rw [vvMain_build hman hvoc hlast hstore hstd hany hpl hunits]
  exact hr.symm

/-! ### Lemmas for the table projection -/

theorem tableLoop_skip (g1 g2 : List GraphEntry) :
    tableLoop (g1 ++ GraphEntry.malformed :: g2) = tableLoop (g1 ++ g2) := by
  induction g1 with
  | nil => rfl
  | cons e rest ih =>
      cases e with
      | malformed =>
          simp only [List.cons_append, tableLoop]
          exact ih
      | record c =>
          simp only [List.cons_append, tableLoop]
          have ih2 : tableLoop (rest.append (GraphEntry.malformed :: g2)) =
              tableLoop (rest.append g2) := ih
          rw [ih2]

theorem tableLoop_ok (g : List GraphEntry)
    (h : g.all entryDefined = true) :
    tableLoop g = PyRes.val (g.filterMap entryRow) := by
  induction g with
  | nil => rfl
  | cons e rest ih =>
      simp only [List.all_cons, Bool.and_eq_true] at h
      cases e with
      | malformed =>
          simp only [tableLoop, List.filterMap_cons]
          rw [ih h.2]
          rfl
      | record c =>
          have hd := h.1
          simp only [entryDefined] at hd
          rcases hdef : c.definition with _ | d
          · rw [hdef] at hd
            cases hd
          simp only [tableLoop, rowOfConcept, hdef]
          rw [ih h.2]
          simp only [List.filterMap_cons, entryRow, hdef]

/-! ### Concrete data used in the claim theorems -/

/-- The C1 scenario model concept (amended: the broader and related URIs
carry the L05 and L35 collection markers). -/
def c1model : Concept :=
  { id := "U1", prefLabel := some "SBE37", broader := some ["U2L05"],
    related := some ["U3L35"] }

def c1l22 : Store := [("U1", c1model)]

def c1l05 : Store := [("U2L05", { id := "U2L05", prefLabel := some "CTD" })]

def c1l35 : Store := [("U3L35",
  { id := "U3L35", prefLabel := some "Seabird" })]

/-- The C1 input sensor record: every mandatory key, all values `x` except
the model vocabulary URI. -/
def c1input : Record :=
  [("long_name", "x"), ("sensor_maker", "x"), ("sensor_maker_vocabulary", "x"),
   ("sensor_model", "x"), ("sensor_model_vocabulary", "U1"),
   ("sensor_type", "x"), ("sensor_type_vocabulary", "x")]

/-- The corrected output of the amended C1 scenario. -/
def c1expected : Record :=
  [("long_name", "SBE37"), ("sensor_maker", "Seabird"),
   ("sensor_maker_vocabulary", "U3L35"), ("sensor_model", "SBE37"),
   ("sensor_model_vocabulary", "U1"), ("sensor_type", "CTD"),
   ("sensor_type_vocabulary", "U2L05")]

/-- The literal C1 scenario stores: broader URI `U2` and related URI `U3`
exactly as written in the claim, which do not contain the L05 / L35
collection markers the source tests for. -/
def c1l22lit : Store := [("U1",
  { id := "U1", prefLabel := some "SBE37", broader := some ["U2"],
    related := some ["U3"] })]

def c1l05lit : Store := [("U2", { id := "U2", prefLabel := some "CTD" })]

def c1l35lit : Store := [("U3", { id := "U3", prefLabel := some "Seabird" })]

/-- What validate_sensor actually returns on the literal C1 scenario: the
type and maker fields keep their input values. -/
def c1outLit : Record :=
  [("long_name", "SBE37"), ("sensor_maker", "x"),
   ("sensor_maker_vocabulary", "x"), ("sensor_model", "SBE37"),
   ("sensor_model_vocabulary", "U1"), ("sensor_type", "x"),
   ("sensor_type_vocabulary", "x")]

def c2l22 : Store := [("U1",
  { id := "U1", prefLabel := some "SBE37", broader := some [],
    related := some [] })]

/-- A record missing six of the seven mandatory sensor keys. -/
def c2missing : Record := [("sensor_model_vocabulary", "U1")]

/-- A record with all mandatory keys plus one extra key. -/
def c2extra : Record :=
  [("long_name", "x"), ("sensor_maker", "x"), ("sensor_maker_vocabulary", "x"),
   ("sensor_model", "x"), ("sensor_model_vocabulary", "U1"),
   ("sensor_type", "x"), ("sensor_type_vocabulary", "x"), ("bogus", "1")]

/-- A model concept whose dict has no `skos:broader` key at all. -/
def c3l22 : Store := [("U1", { id := "U1", prefLabel := some "M" })]

def c3sensor : Record := [("sensor_model_vocabulary", "U1")]

def c3store : Store := [("V1/", { id := "V1/", prefLabel := some "t" })]

/-- A P07 table row carrying no units URI (a NaN cell). -/
def c3p07 : List Row :=
  [{ uri := "u", definition := "d", cf_standard_name := some "sn" }]

def c3var : Record :=
  [("standard_name", "sn"), ("vocabulary", "V1"), ("units", "x")]

def c4store : Store := [("http://v/OG1/x/",
  { id := "http://v/OG1/x/", prefLabel := some "temp" })]

def c4p07 : List Row :=
  [{ uri := "z", definition := "d", cf_standard_name := some "sn",
     units_uri := some "P06A" }]

def c4p06 : Store := [("P06A",
  { id := "P06A", prefLabel := some "degC", altLabel := some "deg_C" })]

/-- Plain-scheme URI lacking only the trailing separator. -/
def c4slashless : Record :=
  [("standard_name", "sn"), ("vocabulary", "http://v/OG1/x"),
   ("units", "degC")]

/-- Secure-scheme URI whose plain-scheme form with the separator is in the
store. -/
def c4https : Record :=
  [("standard_name", "sn"), ("vocabulary", "https://v/OG1/x"),
   ("units", "degC")]

/-- A model concept with two broader URIs both matching the L05 marker. -/
def c5model : Concept :=
  { id := "U1", prefLabel := some "SBE37", broader := some ["AL05", "BL05"],
    related := some [] }

def c5l22 : Store := [("U1", c5model)]

def c5l05 : Store :=
  [("AL05", { id := "AL05", prefLabel := some "TypeA" }),
    ("BL05", { id := "BL05", prefLabel := some "TypeB" })]

def c5input : Record :=
  [("long_name", "x"), ("sensor_maker", "x"), ("sensor_maker_vocabulary", "x"),
   ("sensor_model", "x"), ("sensor_model_vocabulary", "U1"),
   ("sensor_type", "x"), ("sensor_type_vocabulary", "x")]

/-- The record validate_sensor actually returns in the C5 scenario: the
last matching broader URI wins. -/
def c5out : Record :=
  [("long_name", "SBE37"), ("sensor_maker", "x"),
   ("sensor_maker_vocabulary", "x"), ("sensor_model", "SBE37"),
   ("sensor_model_vocabulary", "U1"), ("sensor_type", "TypeB"),
   ("sensor_type_vocabulary", "BL05")]

def c6l22 : Store := [("U1",
  { id := "U1", prefLabel := some "SBE37", broader := some ["U2L05"],
    related := some ["U3L35"] })]

def c6l05 : Store := [("U2L05", { id := "U2L05", prefLabel := some "CTD" })]

def c6l35 : Store := [("U3L35",
  { id := "U3L35", prefLabel := some "Seabird" })]

def c6full : Record :=
  [("long_name", "x"), ("sensor_maker", "x"), ("sensor_maker_vocabulary", "x"),
   ("sensor_model", "x"), ("sensor_model_vocabulary", "U1"),
   ("sensor_type", "x"), ("sensor_type_vocabulary", "x")]

/-- c6full with the mandatory key `long_name` removed. -/
def c6dropped : Record :=
  [("sensor_maker", "x"), ("sensor_maker_vocabulary", "x"),
   ("sensor_model", "x"), ("sensor_model_vocabulary", "U1"),
   ("sensor_type", "x"), ("sensor_type_vocabulary", "x")]

/-- C7 counterexample model: two broader L05 matches, and a maker concept
whose preferred label is literally the first broader URI. -/
def c7l22 : Store := [("U1",
  { id := "U1", prefLabel := some "SBE37", broader := some ["AL05", "BL05"],
    related := some ["UL35"] })]

def c7l05 : Store :=
  [("AL05", { id := "AL05", prefLabel := some "Atype" }),
   ("BL05", { id := "BL05", prefLabel := some "Btype" })]

def c7l35 : Store := [("UL35", { id := "UL35", prefLabel := some "AL05" })]

def c7input : Record :=
  [("long_name", "x"), ("sensor_maker", "x"), ("sensor_maker_vocabulary", "x"),
   ("sensor_model", "x"), ("sensor_model_vocabulary", "U1"),
   ("sensor_type", "x"), ("sensor_type_vocabulary", "x")]

/-- First output of validate_sensor in the C7 scenario. -/
def c7r : Record :=
  [("long_name", "SBE37"), ("sensor_maker", "AL05"),
   ("sensor_maker_vocabulary", "UL35"), ("sensor_model", "SBE37"),
   ("sensor_model_vocabulary", "U1"), ("sensor_type", "Btype"),
   ("sensor_type_vocabulary", "BL05")]

/-- Output of validate_sensor applied to c7r: the loop now breaks at the
first broader match because c7r's maker value equals that URI. -/
def c7r2 : Record :=
  [("long_name", "SBE37"), ("sensor_maker", "AL05"),
   ("sensor_maker_vocabulary", "UL35"), ("sensor_model", "SBE37"),
   ("sensor_model_vocabulary", "U1"), ("sensor_type", "Atype"),
   ("sensor_type_vocabulary", "AL05")]

/-- C7 witness model collection: a single broader L05 match. -/
def c7wModel : Concept :=
  { id := "U1", prefLabel := some "SBE37", broader := some ["AL05"],
    related := some ["UL35"] }

def c7wcs : List Concept := [c7wModel]

def c7wl05 : Store := [("AL05", { id := "AL05", prefLabel := some "Atype" })]

def c7wl35 : Store := [("UL35", { id := "UL35", prefLabel := some "Maker" })]

def c7win : Record :=
  [("long_name", "x"), ("sensor_maker", "x"), ("sensor_maker_vocabulary", "x"),
   ("sensor_model", "x"), ("sensor_model_vocabulary", "U1"),
   ("sensor_type", "x"), ("sensor_type_vocabulary", "x")]

def c7wout : Record :=
  [("long_name", "SBE37"), ("sensor_maker", "Maker"),
   ("sensor_maker_vocabulary", "UL35"), ("sensor_model", "SBE37"),
   ("sensor_model_vocabulary", "U1"), ("sensor_type", "Atype"),
   ("sensor_type_vocabulary", "AL05")]

/-- A graph whose first concept has no `skos:definition` key; the trailing
entry stands for the collection descriptor that `graph[:-1]` removes. -/
def c8graph : List GraphEntry :=
  [GraphEntry.record { id := "A" }, GraphEntry.malformed]

def c8goodConcept : RawConcept :=
  { id := "A", definition := some (DefVal.asStr "da"), prefLabel := some "na",
    related := some ["xP06u", "yP06v"] }

def c8good2 : RawConcept :=
  { id := "B", definition := some (DefVal.asDict "db") }

def c9store : Store := [("V1/",
  { id := "V1/", prefLabel := some "temp", related := some [] })]

def c9p07 : List Row :=
  [{ uri := "x", definition := "d",
     cf_standard_name := some "sea_water_temperature",
     units_uri := some "P06U" }]

def c9p06 : Store := [("P06U",
  { id := "P06U", prefLabel := some "degC", altLabel := some "degrees_C" })]

def c9v : Record :=
  [("standard_name", "sea_water_temperature"), ("vocabulary", "V1"),
   ("units", "degC")]

/-- The successful output of validate_variable on c9v. -/
def c9out : Record :=
  [("standard_name", "sea_water_temperature"), ("vocabulary", "V1"),
   ("units", "degC"), ("coordinates", "TIME, LONGITUDE, LATITUDE, DEPTH"),
   ("_FillValue", "NaNf"), ("long_name", "temp")]

/-- A draft variable record missing `vocabulary` and `units`. -/
def c10v : Record := [("standard_name", "sn")]

/-! ### Claim C1 -/

/-- C1 counterexample: on the literal scenario of the claim (model concept
U1 with broader URI `U2` and related URI `U3`), validate_sensor succeeds but
returns a record whose `sensor_type` is still `x`, not `CTD`: the URI `U2`
does not contain the `L05` type-collection marker the source tests with
substring containment, so the claimed output is not produced. -/
theorem c1_counterexample :
    validate_sensor c1l22lit c1l05lit c1l35lit c1input =
      PyRes.val (some c1outLit) ∧
    alookup c1outLit "sensor_type" = some "x" ∧
    some "x" ≠ some ("CTD" : String) := by
  refine ⟨rfl, rfl, by decide⟩

/-! ### Claim C2 -/

/-- C2: the schema check of validate_sensor is `set(sensor.keys()) -
mandatory_keys`, which is nonempty only when the record has an extra key.
A record missing six of the seven mandatory keys therefore passes the check
and is returned successfully (even corrected), contradicting the claim and
the function's own docstring; a record with an extra key is rejected. -/
theorem c2_eval :
    validate_sensor c2l22 [] [] c2missing = PyRes.val (some c2missing) ∧
    validate_sensor c2l22 [] [] c2extra = PyRes.val none := by
  exact ⟨rfl, rfl⟩

/-! ### Claim C3 -/

/-- C3 counterexample: exceptions do escape the reconcilers.  A model
concept without a `skos:broader` key makes validate_sensor raise KeyError,
and a standard-name table row with no units URI makes validate_variable
raise KeyError on the units-store lookup; neither is converted to the
falsy rejection signal. -/
theorem c3_counterexample :
    validate_sensor c3l22 [] [] c3sensor = PyRes.raised ∧
    (validate_variable c3store [] c3p07 "TEMP" c3var).2 = PyRes.raised := by
  exact ⟨rfl, rfl⟩

/-! ### Claim C4 -/

/-- C4: the trailing-separator half of the normalisation works (a URI
lacking the separator is found after `/` is appended), but the source line
`variable_uri.replace('https:', 'http:')` discards the replaced string, so
a secure-scheme URI is never rewritten and its store lookup fails: the
record is rejected although the plain-scheme URI is in the store. -/
theorem c4_eval :
    succeeded (validate_variable c4store c4p06 c4p07 "TEMP" c4slashless).2 =
      true ∧
    (validate_variable c4store c4p06 c4p07 "TEMP" c4https).2 =
      PyRes.val none := by
  exact ⟨rfl, rfl⟩

/-! ### Claim C5 -/

/-- C5 counterexample: with two broader URIs both matching the type marker
(`AL05` then `BL05`) and neither occurring among the input record's values,
validate_sensor sets `sensor_type_vocabulary` from the LAST match `BL05`,
not from the first match `AL05` as the claim states. -/
theorem c5_counterexample :
    validate_sensor c5l22 c5l05 [] c5input = PyRes.val (some c5out) ∧
    alookup c5out "sensor_type_vocabulary" = some "BL05" ∧
    some "BL05" ≠ some ("AL05" : String) := by
  refine ⟨rfl, rfl, by decide⟩

/-! ### Claim C6 -/

/-- C6: removing the mandatory key `long_name` from a record on which
validate_sensor succeeds does NOT make it fail: the schema check only
detects extra keys, so the stripped record is still reconciled
successfully, contradicting the claim (and the docstring of the source). -/
theorem c6_eval :
    succeeded (validate_sensor c6l22 c6l05 c6l35 c6full) = true ∧
    succeeded (validate_sensor c6l22 c6l05 c6l35 c6dropped) = true := by
  exact ⟨rfl, rfl⟩

/-! ### Claim C7 -/

/-- C7 counterexample: reconciliation of sensors is not idempotent.  The
first run selects the last broader type match `BL05`; the returned record's
`sensor_maker` value is the string `AL05`, so the second run's loop breaks
at the first match `AL05` and returns a different record. -/
theorem c7_counterexample :
    validate_sensor c7l22 c7l05 c7l35 c7input = PyRes.val (some c7r) ∧
    validate_sensor c7l22 c7l05 c7l35 c7r = PyRes.val (some c7r2) ∧
    c7r2 ≠ c7r := by
  refine ⟨rfl, rfl, by decide⟩

/-! ### Claim C8 -/

/-- C8 counterexample: a concept entry with no `skos:definition` key is not
skipped with a diagnostic — `concept['skos:definition']` raises KeyError and
the whole table projection aborts. -/
theorem c8_counterexample :
    table_from_collection c8graph = PyRes.raised ∧
    PyRes.raised ≠ PyRes.val ([] : List Row) := by
  refine ⟨rfl, by decide⟩

/-- C8 (amended): table_from_collection skips every non-record graph entry
without aborting (deleting a malformed entry does not change the result),
and when every record concept of the graph carries a definition the
projection succeeds with exactly the rows of those concepts, in order.  A
concept missing a definition, however, aborts the whole projection (see the
counterexample). -/
theorem c8_theorem :
    (∀ (g1 g2 : List GraphEntry) (d : GraphEntry),
      table_from_collection (g1 ++ GraphEntry.malformed :: g2 ++ [d]) =
        table_from_collection (g1 ++ g2 ++ [d])) ∧
    (∀ (g : List GraphEntry) (d : GraphEntry),
      g.all entryDefined = true →
      table_from_collection (g ++ [d]) = PyRes.val (g.filterMap entryRow)) := by
  have hdrop : ∀ (x : List GraphEntry) (d : GraphEntry),
      (x ++ [d]).dropLast = x := by
    intro x d
    exact List.dropLast_concat
  constructor
  · intro g1 g2 d
    unfold table_from_collection
    have e1 : g1 ++ GraphEntry.malformed :: g2 ++ [d] =
        (g1 ++ GraphEntry.malformed :: g2) ++ [d] := by
      simp [List.append_assoc]
    have e2 : g1 ++ g2 ++ [d] = (g1 ++ g2) ++ [d] := by
      simp [List.append_assoc]
    rw [e1, e2, hdrop, hdrop]
    exact tableLoop_skip g1 g2
  · intro g d h
    unfold table_from_collection
    rw [hdrop]
    exact tableLoop_ok g h

/-- C8 witness: the skip property at a concrete graph with one malformed
entry between two well-formed concepts, and the completeness property at
the same concepts (the second row records the last P06-marked related URI
of the first concept). -/
theorem c8_witness :
    table_from_collection
      ([GraphEntry.record c8goodConcept] ++ GraphEntry.malformed ::
        [GraphEntry.record c8good2] ++ [GraphEntry.malformed]) =
      table_from_collection
        ([GraphEntry.record c8goodConcept] ++ [GraphEntry.record c8good2] ++
          [GraphEntry.malformed]) ∧
    table_from_collection
      ([GraphEntry.record c8goodConcept, GraphEntry.record c8good2] ++
        [GraphEntry.malformed]) =
      PyRes.val
        ([GraphEntry.record c8goodConcept,
          GraphEntry.record c8good2].filterMap entryRow) := by
  exact ⟨c8_theorem.1 [GraphEntry.record c8goodConcept]
    [GraphEntry.record c8good2] GraphEntry.malformed,
    c8_theorem.2 [GraphEntry.record c8goodConcept, GraphEntry.record c8good2]
      GraphEntry.malformed (by decide)⟩

/-! ### Claim C9 -/

/-- C9 (confirmed): for a variable whose name is not one of the four fixed
coordinate names, every record validate_variable returns has `coordinates`
equal to the fixed literal, overwriting any input value; for the four
coordinate names the `coordinates` field of the final record state equals
the input's (untouched). -/
theorem c9_theorem :
    (∀ (store p06 : Store) (p07 : List Row) (n : String) (v r : Record),
      coordNames.contains n = false →
      (validate_variable store p06 p07 n v).2 = PyRes.val (some r) →
      alookup r "coordinates" = some coordsLiteral) ∧
    (∀ (store p06 : Store) (p07 : List Row) (n : String) (v : Record),
      coordNames.contains n = true →
      alookup (validate_variable store p06 p07 n v).1 "coordinates" =
        alookup v "coordinates") := by
  constructor
  · intro store p06 p07 n v r hn hsucc
    unfold validate_variable at hsucc
    have hfst := vvMain_fst_of_some hsucc
    rw [← hfst, vvMain_fst_pres _ _ _ _ _ (by decide)]
    exact vvPrep_coords_false n v hn
  · intro store p06 p07 n v hn
    unfold validate_variable
    rw [vvMain_fst_pres _ _ _ _ _ (by decide)]
    exact vvPrep_coords_true n v hn

/-- C9 witness: the overwrite half at the successful concrete run of the
TEMP variable, and the untouched half at the TIME variable. -/
theorem c9_witness :
    alookup c9out "coordinates" = some coordsLiteral ∧
    alookup (validate_variable c9store c9p06 c9p07 "TIME" c9v).1
        "coordinates" = alookup c9v "coordinates" := by
  exact ⟨c9_theorem.1 c9store c9p06 c9p07 "TEMP" c9v c9out (by decide) rfl,
    c9_theorem.2 c9store c9p06 c9p07 "TIME" c9v (by decide)⟩

/-! ### Claim C10 -/

/-- C10 (confirmed): validate_variable mutates the caller's mapping before
any check.  For a non-coordinate variable missing a mandatory key the call
returns the rejection signal, yet the final state of the input mapping is
exactly the prepared record: `coordinates` has been forced to the fixed
literal, `_FillValue` defaulted to the NaN sentinel when absent, and the
mapping differs from the input whenever the input's `coordinates` was not
already the fixed literal. -/
theorem c10_theorem :
    ∀ (store p06 : Store) (p07 : List Row) (n : String) (v : Record),
      coordNames.contains n = false →
      (vvMandatory.all (fun k => (alookup v k).isSome)) = false →
      (validate_variable store p06 p07 n v).2 = PyRes.val none ∧
      (validate_variable store p06 p07 n v).1 = vvPrep n v ∧
      alookup (validate_variable store p06 p07 n v).1 "coordinates" =
        some coordsLiteral ∧
      (alookup v "_FillValue" = none →
        alookup (validate_variable store p06 p07 n v).1 "_FillValue" =
          some "NaNf") ∧
      (alookup v "coordinates" ≠ some coordsLiteral →
        (validate_variable store p06 p07 n v).1 ≠ v) := by
  intro store p06 p07 n v hn hm
  have hm' : (vvMandatory.all
      (fun k => (alookup (vvPrep n v) k).isSome)) = false := by
    simp only [vvMandatory, List.all_cons, List.all_nil] at hm ⊢
    rw [vvPrep_pres n v "standard_name" (by decide) (by decide),
      vvPrep_pres n v "vocabulary" (by decide) (by decide),
      vvPrep_pres n v "units" (by decide) (by decide)]
    exact hm
  have hmain : validate_variable store p06 p07 n v =
      (vvPrep n v, PyRes.val none) := by
    unfold validate_variable vvMain
    rw [if_neg (by rw [hm']; exact Bool.false_ne_true)]
  rw [hmain]
  refine ⟨rfl, rfl, vvPrep_coords_false n v hn, vvPrep_fill_of_none n v, ?_⟩
  intro hne heq
  exact hne (by rw [← heq]; exact vvPrep_coords_false n v hn)

/-- C10 witness: a TEMP draft with only `standard_name`, no coordinates and
no fill value — rejected, yet its final state carries the forced
coordinates and the NaN sentinel and differs from the input. -/
theorem c10_witness :
    (validate_variable [] [] [] "TEMP" c10v).2 = PyRes.val none ∧
    (validate_variable [] [] [] "TEMP" c10v).1 = vvPrep "TEMP" c10v ∧
    alookup (validate_variable [] [] [] "TEMP" c10v).1 "coordinates" =
      some coordsLiteral ∧
    (alookup c10v "_FillValue" = none →
      alookup (validate_variable [] [] [] "TEMP" c10v).1 "_FillValue" =
        some "NaNf") ∧
    (alookup c10v "coordinates" ≠ some coordsLiteral →
      (validate_variable [] [] [] "TEMP" c10v).1 ≠ c10v) := by
  exact c10_theorem [] [] [] "TEMP" c10v (by decide) (by decide)

/-! ### Claim C3 (amended theorem) -/

/-- C3 (amended): every per-record failure detected by an explicit check is
converted to the falsy rejection signal at the reconciler boundary — the
sensor extra-key check, the sensor model-URI lookup, the variable
mandatory-key check, the variable vocabulary lookup on the normalised URI,
and the variable standard-name check.  The cases listed in the claim's
tail (missing broader/related links, missing units URI, units URI absent
from the units store) instead raise uncaught exceptions: see the
counterexample. -/
theorem c3_theorem :
    (∀ (l22 l05 l35 : Store) (s : Record),
      ((rkeys s).all (fun k => mandatory_sensor_keys.contains k)) = false →
      validate_sensor l22 l05 l35 s = PyRes.val none) ∧
    (∀ (l22 l05 l35 : Store) (s : Record) (uri : String),
      ((rkeys s).all (fun k => mandatory_sensor_keys.contains k)) = true →
      alookup s "sensor_model_vocabulary" = some uri →
      alookup l22 uri = none →
      validate_sensor l22 l05 l35 s = PyRes.val none) ∧
    (∀ (store p06 : Store) (p07 : List Row) (n : String) (v : Record),
      (vvMandatory.all (fun k => (alookup v k).isSome)) = false →
      (validate_variable store p06 p07 n v).2 = PyRes.val none) ∧
    (∀ (store p06 : Store) (p07 : List Row) (n : String) (v : Record)
      (uri0 : String) (ch : Char),
      (vvMandatory.all (fun k => (alookup (vvPrep n v) k).isSome)) = true →
      alookup (vvPrep n v) "vocabulary" = some uri0 →
      uri0.toList.getLast? = some ch →
      alookup store (withSlash uri0 ch) = none →
      (validate_variable store p06 p07 n v).2 = PyRes.val none) ∧
    (∀ (store p06 : Store) (p07 : List Row) (n : String) (v : Record)
      (uri0 : String) (ch : Char) (concept : Concept) (std : String),
      (vvMandatory.all (fun k => (alookup (vvPrep n v) k).isSome)) = true →
      alookup (vvPrep n v) "vocabulary" = some uri0 →
      uri0.toList.getLast? = some ch →
      alookup store (withSlash uri0 ch) = some concept →
      alookup (vvPrep n v) "standard_name" = some std →
      (p07.any (fun row => row.cf_standard_name == some std)) = false →
      (validate_variable store p06 p07 n v).2 = PyRes.val none) := by
  refine ⟨?_, ?_, ?_, ?_, ?_⟩
  · intro l22 l05 l35 s hall
    unfold validate_sensor
    rw [if_neg (by rw [hall]; exact Bool.false_ne_true)]
  · intro l22 l05 l35 s uri hall hsmv hl22
    unfold validate_sensor
    rw [if_pos hall]
    simp only [hsmv, hl22]
  · intro store p06 p07 n v hm
    have hm' : (vvMandatory.all
        (fun k => (alookup (vvPrep n v) k).isSome)) = false := by
      simp only [vvMandatory, List.all_cons, List.all_nil] at hm ⊢
      rw [vvPrep_pres n v "standard_name" (by decide) (by decide),
        vvPrep_pres n v "vocabulary" (by decide) (by decide),
        vvPrep_pres n v "units" (by decide) (by decide)]
      exact hm
    unfold validate_variable vvMain
    rw [if_neg (by rw [hm']; exact Bool.false_ne_true)]
  · intro store p06 p07 n v uri0 ch hm hvoc hlast hstore
    unfold validate_variable vvMain
    rw [if_pos hm]
    simp only [hvoc, hlast, hstore]
  · intro store p06 p07 n v uri0 ch concept std hm hvoc hlast hstore hstd
      hany
    have hany2 : ¬ ((p07.any fun row => row.cf_standard_name == some std)
        = true) := by
      rw [hany]
      exact Bool.false_ne_true
    unfold validate_variable vvMain
    rw [if_pos hm]
    simp only [hvoc, hlast, hstore, hstd]
    rw [if_neg hany2]

/-- C3 witness: each of the five checked-rejection cases at a concrete
input — an extra sensor key, an unknown model URI, a variable with no
mandatory keys, an unknown vocabulary URI, and an unknown standard name. -/
theorem c3_witness :
    validate_sensor [] [] [] [("bogus", "1")] = PyRes.val none ∧
    validate_sensor [] [] [] [("sensor_model_vocabulary", "U9")] =
      PyRes.val none ∧
    (validate_variable [] [] [] "TEMP" ([] : Record)).2 = PyRes.val none ∧
    (validate_variable [] [] [] "TEMP" c3var).2 = PyRes.val none ∧
    (validate_variable c3store [] [] "TEMP" c3var).2 = PyRes.val none := by
  exact ⟨c3_theorem.1 [] [] [] [("bogus", "1")] (by decide),
    c3_theorem.2.1 [] [] [] [("sensor_model_vocabulary", "U9")] "U9"
      (by decide) (by decide) rfl,
    c3_theorem.2.2.1 [] [] [] "TEMP" [] (by decide),
    c3_theorem.2.2.2.1 [] [] [] "TEMP" c3var "V1" '1' (by decide) (by decide)
      (by decide) rfl,
    c3_theorem.2.2.2.2 c3store [] [] "TEMP" c3var "V1" '1'
      { id := "V1/", prefLabel := some "t" } "sn" (by decide) (by decide)
      (by decide) rfl (by decide) (by decide)⟩

/-- C1 (amended): for every sensor record whose key set is exactly the
mandatory set, whose model-vocabulary URI resolves to a concept with a
preferred label, and on which validate_sensor succeeds (it can raise when
the concept lacks broader or related links), the output's `sensor_model`
and `long_name` both equal that preferred label.  The concrete scenario
holds once the broader and related URIs carry the L05 / L35 collection
markers the source tests for (here `U2L05` and `U3L35`): the output is the
claimed record with those URIs as type and maker vocabularies. -/
theorem c1_theorem :
    (∀ (l22 l05 l35 : Store) (s r : Record) (uri : String)
      (data : Concept) (model_name : String),
      ((rkeys s).all (fun k => mandatory_sensor_keys.contains k)) = true →
      (mandatory_sensor_keys.all (fun k => (alookup s k).isSome)) = true →
      alookup s "sensor_model_vocabulary" = some uri →
      alookup l22 uri = some data →
      data.prefLabel = some model_name →
      validate_sensor l22 l05 l35 s = PyRes.val (some r) →
      alookup r "sensor_model" = some model_name ∧
        alookup r "long_name" = some model_name) ∧
    validate_sensor c1l22 c1l05 c1l35 c1input =
      PyRes.val (some c1expected) := by
  constructor
  · intro l22 l05 l35 s r uri data model_name hall hpres hsmv hdata hpl
      hsucc
    obtain ⟨uri', data', mn', broader, related, vd1, vd2, hall', hsmv',
      hdata', hpl', hbr', hbl', hrel', hrl', hr⟩ :=
      validate_sensor_inv hsucc
    rw [hsmv] at hsmv'
    injection hsmv' with he1
    subst he1
    rw [hdata] at hdata'
    injection hdata' with he2
    subst he2
    rw [hpl] at hpl'
    injection hpl' with he3
    subst he3
    have hvd2sm : alookup vd2 "sensor_model" = some model_name := by
      rw [relatedLoop_pres hrl' "sensor_model" (by decide) (by decide),
        broaderLoop_pres hbl' "sensor_model" (by decide) (by decide)]
      simp [vocabInit, alookup]
    have hvd2ln : alookup vd2 "long_name" = some model_name := by
      rw [relatedLoop_pres hrl' "long_name" (by decide) (by decide),
        broaderLoop_pres hbl' "long_name" (by decide) (by decide)]
      simp [vocabInit, alookup]
    simp only [mandatory_sensor_keys, List.all_cons, List.all_nil,
      Bool.and_eq_true, and_true] at hpres
    obtain ⟨hpln, hpmk, hpmkv, hpmo, hpmov, hpty, hptyv⟩ := hpres
    subst hr
    constructor
    · rw [alookup_correctionLoop]
      obtain ⟨w, hw⟩ := Option.isSome_iff_exists.mp hpmo
      rw [hw, hvd2sm]
      rfl
    · rw [alookup_correctionLoop]
      obtain ⟨w, hw⟩ := Option.isSome_iff_exists.mp hpln
      rw [hw, hvd2ln]
      rfl
  · rfl

/-- C1 witness: the general half applied at the marker-bearing concrete
scenario, every hypothesis discharged by evaluation. -/
theorem c1_witness :
    alookup c1expected "sensor_model" = some "SBE37" ∧
      alookup c1expected "long_name" = some "SBE37" := by
  exact c1_theorem.1 c1l22 c1l05 c1l35 c1input c1expected "U1" c1model
    "SBE37" (by decide) (by decide) rfl rfl rfl rfl

/-- C5 (amended): when the resolved model concept's broader list has at
least one URI matching the type marker, and the input record carries the
type keys, the output's `sensor_type_vocabulary` is typeChoice — the FIRST
matching URI that already occurs among the input record's values if any,
otherwise the LAST matching URI — and `sensor_type` is that URI's resolved
label.  The choice therefore does depend on the values already present in
the record, and with no such value the last match wins, not the first. -/
theorem c5_theorem :
    ∀ (l22 l05 l35 : Store) (s r : Record) (uri : String) (data : Concept)
      (bs : List String),
      alookup s "sensor_model_vocabulary" = some uri →
      alookup l22 uri = some data →
      data.broader = some bs →
      bs.filter (fun t => strHasSub t "L05") ≠ [] →
      (alookup s "sensor_type_vocabulary").isSome = true →
      (alookup s "sensor_type").isSome = true →
      validate_sensor l22 l05 l35 s = PyRes.val (some r) →
      alookup r "sensor_type_vocabulary" = typeChoice (rvalues s) bs ∧
        alookup r "sensor_type" =
          typeLabelOf l05 (typeChoice (rvalues s) bs) := by
  intro l22 l05 l35 s r uri data bs hsmv hdata hbr hmatch hstv hst hsucc
  obtain ⟨uri', data', mn, broader, related, vd1, vd2, hall', hsmv', hdata',
    hpl', hbr', hbl', hrel', hrl', hr⟩ := validate_sensor_inv hsucc
  rw [hsmv] at hsmv'
  injection hsmv' with he1
  subst he1
  rw [hdata] at hdata'
  injection hdata' with he2
  subst he2
  rw [hbr] at hbr'
  injection hbr' with he3
  subst he3
  obtain ⟨u, hu⟩ :=
    Option.isSome_iff_exists.mp (@typeChoice_isSome (rvalues s) bs hmatch)
  obtain ⟨hc1, hc2⟩ := broaderLoop_choice hbl'
  rw [hu] at hc1 hc2
  simp only [Option.elim] at hc1 hc2
  have hv2a : alookup vd2 "sensor_type_vocabulary" = some u := by
    rw [relatedLoop_pres hrl' "sensor_type_vocabulary" (by decide)
      (by decide), hc1]
  have hv2b : alookup vd2 "sensor_type" = typeLabelOf l05 (some u) := by
    rw [relatedLoop_pres hrl' "sensor_type" (by decide) (by decide), hc2]
  obtain ⟨lbl, hlbl⟩ :=
    Option.isSome_iff_exists.mp (typeChoice_resolves hbl' hu)
  subst hr
  constructor
  · rw [alookup_correctionLoop]
    obtain ⟨w, hw⟩ := Option.isSome_iff_exists.mp hstv
    rw [hw, hv2a, hu]
    rfl
  · rw [alookup_correctionLoop]
    obtain ⟨w, hw⟩ := Option.isSome_iff_exists.mp hst
    rw [hw, hv2b, hu, hlbl]
    rfl

/-- C5 witness: the characterisation applied at the two-match scenario —
no match occurs among the input values, so typeChoice evaluates to the
last match `BL05` and the output carries its label. -/
theorem c5_witness :
    alookup c5out "sensor_type_vocabulary" =
      typeChoice (rvalues c5input) ["AL05", "BL05"] ∧
    alookup c5out "sensor_type" =
      typeLabelOf c5l05 (typeChoice (rvalues c5input) ["AL05", "BL05"]) := by
  exact c5_theorem c5l22 c5l05 [] c5input c5out "U1" c5model
    ["AL05", "BL05"] rfl rfl rfl (by decide) (by decide) (by decide) rfl

/-- C7 (amended): validate_variable is idempotent on success — a second run
on the returned record against the same stores returns the identical
record.  validate_sensor is idempotent on success provided the resolved
model concept's broader list contains at most one URI matching the type
marker (the model store being keyed by concept id, as
concept_dict_from_collection builds it); with two or more matches the
value-sensitive break of the broader loop can select a different type on
the second run — see the counterexample. -/
theorem c7_theorem :
    (∀ (cs : List Concept) (l05 l35 : Store) (s r : Record) (uri : String)
      (data : Concept),
      alookup s "sensor_model_vocabulary" = some uri →
      alookup (concept_dict_from_collection cs) uri = some data →
      (data.broader.getD []).countP (fun t => strHasSub t "L05") ≤ 1 →
      validate_sensor (concept_dict_from_collection cs) l05 l35 s =
        PyRes.val (some r) →
      validate_sensor (concept_dict_from_collection cs) l05 l35 r =
        PyRes.val (some r)) ∧
    (∀ (store p06 : Store) (p07 : List Row) (n : String) (v r : Record),
      (validate_variable store p06 p07 n v).2 = PyRes.val (some r) →
      validate_variable store p06 p07 n r = (r, PyRes.val (some r))) := by
  constructor
  · intro cs l05 l35 s r uri data hsmv hdata hcount hsucc
    obtain ⟨uri', data', mn, broader, related, vd1, vd2, hall', hsmv',
      hdata', hpl', hbr', hbl', hrel', hrl', hr⟩ :=
      validate_sensor_inv hsucc
    rw [hsmv] at hsmv'
    injection hsmv' with he1
    subst he1
    rw [hdata] at hdata'
    injection hdata' with he2
    subst he2
    have hid : data.id = uri := concept_dict_coherent cs uri data hdata
    have hcount2 : broader.countP (fun t => strHasSub t "L05") ≤ 1 := by
      rw [hbr'] at hcount
      simpa using hcount
    have hall2 : ((rkeys r).all
        (fun k => mandatory_sensor_keys.contains k)) = true := by
      rw [hr, rkeys_correctionLoop]
      exact hall'
    have hvd2smv : alookup vd2 "sensor_model_vocabulary" =
        some data.id := by
      rw [relatedLoop_pres hrl' "sensor_model_vocabulary" (by decide)
        (by decide), broaderLoop_pres hbl' "sensor_model_vocabulary"
        (by decide) (by decide)]
      simp [vocabInit, alookup]
    have hsmv2 : alookup r "sensor_model_vocabulary" = some uri := by
      rw [hr, alookup_correctionLoop, hsmv, hvd2smv]
      simp [hid]
    have hbl2 : broaderLoop l05 r broader (vocabInit data mn) =
        PyRes.val vd1 := by
      rw [broaderLoop_indep hcount2 r s]
      exact hbl'
    have hbuild := validate_sensor_build hall2 hsmv2 hdata hpl' hbr' hbl2
      hrel' hrl'
    rw [hbuild, hr, correctionLoop_idem]
  · intro store p06 p07 n v r hsucc
    unfold validate_variable at hsucc ⊢
    obtain ⟨uri0, ch, concept, std, lbl, au, hman, hvoc, hlast, hstore,
      hstd, hany, hpl, hunits, hr⟩ := vvMain_inv hsucc
    have hpresr : ∀ k, k ≠ "long_name" →
        alookup r k = alookup (vvPrep n v) k := by
      intro k hk
      rw [hr]
      split
      · rfl
      · rw [alookup_aset, if_neg (Ne.symm hk)]
    have hrln : (alookup r "long_name").isSome = true := by
      by_cases hlw : (alookup (vvPrep n v) "long_name").isSome = true
      · rw [hr, if_pos hlw]
        exact hlw
      · rw [hr, if_neg hlw, alookup_aset, if_pos rfl]
        rfl
    have hprep : vvPrep n r = r := by
      apply vvPrep_self
      · by_cases hcn : coordNames.contains n = true
        · exact Or.inl hcn
        · refine Or.inr ?_
          rw [hpresr "coordinates" (by decide)]
          exact vvPrep_coords_false n v (Bool.eq_false_iff.mpr hcn)
      · rw [hpresr "_FillValue" (by decide)]
        exact vvPrep_fillSome n v
    rw [hprep]
    have hman2 : (vvMandatory.all (fun k => (alookup r k).isSome))
        = true := by
      simp only [vvMandatory, List.all_cons, List.all_nil,
        Bool.and_eq_true, and_true] at hman ⊢
      rw [hpresr "standard_name" (by decide), hpresr "vocabulary"
        (by decide), hpresr "units" (by decide)]
      exact hman
    have hvoc2 : alookup r "vocabulary" = some uri0 := by
      rw [hpresr "vocabulary" (by decide)]
      exact hvoc
    have hstd2 : alookup r "standard_name" = some std := by
      rw [hpresr "standard_name" (by decide)]
      exact hstd
    rw [vvMain_build hman2 hvoc2 hlast hstore hstd2 hany hpl hunits,
      if_pos hrln]

/-- C7 witness: a single-match sensor scenario reconciled twice (second run
returns the first output unchanged), and the TEMP variable scenario
reconciled twice against the same stores. -/
theorem c7_witness :
    validate_sensor (concept_dict_from_collection c7wcs) c7wl05 c7wl35
      c7wout = PyRes.val (some c7wout) ∧
    validate_variable c9store c9p06 c9p07 "TEMP" c9out =
      (c9out, PyRes.val (some c9out)) := by
  exact ⟨c7_theorem.1 c7wcs c7wl05 c7wl35 c7win c7wout "U1" c7wModel rfl
    rfl (by decide) rfl,
    c7_theorem.2 c9store c9p06 c9p07 "TEMP" c9v c9out rfl⟩

end OGV
